import Mathlib

/-!
Verification of the streaming transfer engine of the `smi_stream_dev`
character device driver (`src/driver/smi_stream_dev.c`).

The C code is shallowly embedded: the module-level device instance
(`struct bcm2835_smi_dev_instance`) becomes an explicit state record,
the `kfifo` ring buffers become byte lists with a capacity bound, and
every hardware interaction that the engine merely observes (the
`SMICS_ACTIVE` status, DMA arming success, interruptible lock
acquisition) becomes an explicit oracle argument of the corresponding
operation.  Machine integers that can carry error codes are `Int`;
byte counts are `Nat`.
-/

namespace SmiStream

/-! ## Constants

Linux errno values used by the driver (`-EAGAIN`, `-EINTR`, ...), the
poll bitmask constants, and the driver's private `SMI_TRANSFER_MULTIPLIER`
from line 75 of the source. -/

def EAGAIN : Int := 11

def EINTR : Int := 4

def EINVAL : Int := 22

def ENOTTY : Int := 25

def ENOMEM : Int := 12

def POLLIN : Nat := 0x0001

def POLLRDNORM : Nat := 0x0040

def POLLOUT : Nat := 0x0004

def POLLWRNORM : Nat := 0x0100

def SMI_TRANSFER_MULTIPLIER : Nat := 64

/-! ## Stream state enumeration

`smi_stream_state_en` is declared in `smi_stream_dev.h` (not under
`src/`); its four values are named throughout `smi_stream_dev.c`. -/

inductive StreamState where
  | smi_stream_idle
  | smi_stream_rx_channel_0
  | smi_stream_rx_channel_1
  | smi_stream_tx_channel
  deriving Repr, DecidableEq

/-- Modelled from the spec: the direction enumeration lives in
`smi_stream_dev.h`, which is not under `src/`.  The spec (section 3,
AddressSelector) says Idle and Tx select the "device-to-peripheral
disabled" direction, i.e. `smi_stream_dir_smi_to_device` is the
inactive/zero encoding and `smi_stream_dir_device_to_smi` the active
one. -/
def smi_stream_dir_device_to_smi : Nat := 1

/-- Modelled from the spec: the disabled direction encoding (see
`smi_stream_dir_device_to_smi`). -/
def smi_stream_dir_smi_to_device : Nat := 0

/-- Modelled from the spec: channel 0 encoding from `smi_stream_dev.h`
(not under `src/`); channel bits start at 0. -/
def smi_stream_channel_0 : Nat := 0

/-- Modelled from the spec: channel 1 encoding from `smi_stream_dev.h`
(not under `src/`). -/
def smi_stream_channel_1 : Nat := 1

/-- Modelled from the spec: a bit offset of −1 means "unused" (module
parameter documentation, lines 82–83 of the source, and spec section 4:
"setting both offsets to −1 yields a constant selector of 0"), so a
shift by a negative offset contributes nothing to the selector. -/
def shiftByOffset (v : Nat) (off : Int) : Nat :=
  if 0 ≤ off then v <<< off.toNat else 0

/-- Source function `calc_address_from_state` (source lines 188–210): the address
selector derived from a stream state, given the two configurable bit
offsets.  Note the Tx branch and the final (Idle) branch compute the
same expression `smi_stream_dir_smi_to_device << addr_dir_offset`. -/
def calc_address_from_state (addr_dir_offset addr_ch_offset : Int)
    (state : StreamState) : Nat :=
  if state = .smi_stream_rx_channel_0 then
    shiftByOffset smi_stream_dir_device_to_smi addr_dir_offset |||
      shiftByOffset smi_stream_channel_0 addr_ch_offset
  else if state = .smi_stream_rx_channel_1 then
    shiftByOffset smi_stream_dir_device_to_smi addr_dir_offset |||
      shiftByOffset smi_stream_channel_1 addr_ch_offset
  else if state = .smi_stream_tx_channel then
    shiftByOffset smi_stream_dir_smi_to_device addr_dir_offset
  else
    shiftByOffset smi_stream_dir_smi_to_device addr_dir_offset

/-! ## kfifo model

A Linux `kfifo` of byte elements: a FIFO byte list (head = oldest)
with a fixed capacity.  `kfifo_in` copies `min(n, avail)` bytes,
`kfifo_out` removes `min(n, len)` bytes from the front; `kfifo_reset`
and `kfifo_reset_out` both leave the fifo empty of readable data. -/

structure Fifo where
  capacity : Nat
  data : List Nat
  deriving Repr, DecidableEq

def kfifo_len (f : Fifo) : Nat := f.data.length

def kfifo_avail (f : Fifo) : Nat := f.capacity - f.data.length

def kfifo_is_empty (f : Fifo) : Bool := f.data.length = 0

def kfifo_is_full (f : Fifo) : Bool := f.capacity ≤ f.data.length

def kfifo_in (f : Fifo) (buf : List Nat) : Nat × Fifo :=
  let l := min buf.length (kfifo_avail f)
  (l, { f with data := f.data ++ buf.take l })

def kfifo_out (f : Fifo) (n : Nat) : List Nat × Fifo :=
  let l := min n f.data.length
  (f.data.take l, { f with data := f.data.drop l })

def kfifo_reset (f : Fifo) : Fifo := { f with data := [] }

def kfifo_reset_out (f : Fifo) : Fifo := { f with data := [] }

/-- Model of `kfifo_to_user` with a successful user-space copy: pops up to
`count` bytes, reports the bytes copied. -/
def kfifo_to_user (f : Fifo) (count : Nat) : List Nat × Fifo :=
  kfifo_out f count

/-- Model of `kfifo_from_user` with a successful user-space copy: pushes up to
`n` bytes taken from `buf`. -/
def kfifo_from_user (f : Fifo) (buf : List Nat) (n : Nat) : Nat × Fifo :=
  kfifo_in f (buf.take n)

/-- Kernel helper `rounddown_pow_of_two`, applied by `kfifo_init` to the requested
buffer size. -/
def rounddown_pow_of_two (n : Nat) : Nat := 2 ^ Nat.log2 n

/-! ## Device instance state

`struct bcm2835_smi_dev_instance` (source lines 86–116), restricted to
the fields the streaming engine reads or writes.  `progAddress` records
the selector last handed to `bcm2835_smi_set_address` and `progCount`
the number of such calls (the spec's "reprogram-count probe"). -/

structure DevInstance where
  state : StreamState
  progAddress : Nat
  progCount : Nat
  address_changed : Int
  invalidate_rx_buffers : Int
  invalidate_tx_buffers : Int
  count_since_refresh : Nat
  rx_fifo : Fifo
  tx_fifo : Fifo
  current_read_chunk : Nat
  counter_missed : Nat
  readable : Bool
  writeable : Bool
  transfer_thread_running : Bool
  reader_waiting_sema : Bool
  writer_waiting_sema : Bool
  deriving Repr, DecidableEq

/-- Module parameters (source lines 71–73), mutable at runtime through
the ioctl surface. -/
structure Params where
  fifo_mtu_multiplier : Int
  addr_dir_offset : Int
  addr_ch_offset : Int
  deriving Repr, DecidableEq

/-- Outcome oracle for the hardware steps of `transfer_thread_init`:
`smi_disable_sync` failure (return −1), `smi_init_programmed_transfer`
failure (return −2), cyclic-descriptor submission failure (`errors = 1`),
or full success (return 0). -/
inductive ArmOutcome where
  | disableFail
  | initFail
  | submitFail
  | ok
  deriving Repr, DecidableEq

/-- Source function `transfer_thread_stop` (source lines 771–788): terminates the DMA
transfer and disables the peripheral; on the instance it clears
`transfer_thread_running` and `reader_waiting_sema`. -/
def transfer_thread_stop (i : DevInstance) : DevInstance :=
  { i with transfer_thread_running := false, reader_waiting_sema := false }

/-- Source function `transfer_thread_init` (source lines 713–768): marks the thread
running, performs the hardware disable / programmed-transfer / cyclic
submission sequence (abstraction: `arm` oracle), and — once past the
two early-return failures — zeroes `current_read_chunk` and
`counter_missed` (lines 745–746); the closing `smi_refresh_dma_command`
(line 764) zeroes `count_since_refresh`. -/
def transfer_thread_init (arm : ArmOutcome) (i : DevInstance) :
    Int × DevInstance :=
  let i1 := { i with transfer_thread_running := true }
  match arm with
  | .disableFail => (-1, i1)
  | .initFail => (-2, i1)
  | .submitFail =>
      (1, { i1 with current_read_chunk := 0, counter_missed := 0,
                    count_since_refresh := 0 })
  | .ok =>
      (0, { i1 with current_read_chunk := 0, counter_missed := 0,
                    count_since_refresh := 0 })

/-- Source function `set_state` (source lines 219–305).  Oracles: `hwActive` is the
`smi_is_active` reading taken after `transfer_thread_stop`; `arm` drives
`transfer_thread_init`; `txLockOk` is whether
`mutex_lock_interruptible(&inst->write_lock)` succeeds in the Tx branch.
The two bit offsets parameterise `calc_address_from_state`. -/
def set_state (hwActive : Bool) (arm : ArmOutcome) (txLockOk : Bool)
    (addr_dir_offset addr_ch_offset : Int)
    (i : DevInstance) (new_state : StreamState) : Int × DevInstance :=
  if new_state = i.state then
    (0, i)
  else
    let i1 := transfer_thread_stop i
    if hwActive then
      (-EAGAIN, i1)
    else
      let i2 := { i1 with
        state := .smi_stream_idle,
        progAddress :=
          calc_address_from_state addr_dir_offset addr_ch_offset .smi_stream_idle,
        progCount := i1.progCount + 1 }
      if new_state = .smi_stream_idle then
        (0, i2)
      else
        let i3 := { i2 with
          progAddress :=
            calc_address_from_state addr_dir_offset addr_ch_offset new_state,
          progCount := i2.progCount + 1 }
        if new_state = .smi_stream_tx_channel then
          if txLockOk then
            (0, { i3 with tx_fifo := kfifo_reset i3.tx_fifo, writeable := true })
          else
            (-EINTR, i3)
        else
          let r := transfer_thread_init arm i3
          if r.1 = 0 then
            (0, { r.2 with state := new_state })
          else
            (r.1, { r.2 with
              progAddress :=
                calc_address_from_state addr_dir_offset addr_ch_offset
                  .smi_stream_idle,
              progCount := r.2.progCount + 1,
              state := .smi_stream_idle })

/-! ## Completion callbacks

`chunk` stands for `DMA_BOUNCE_BUFFER_SIZE/4` (the constant is defined
in a header outside `src/`, so the chunk size is kept as a parameter);
`chunkData` is the content of the cyclic-buffer slot
`current_read_chunk % 4` that the callback moves. -/

/-- Source function `stream_smi_read_dma_callback` (source lines 584–615): refresh the
DMA command (zeroing `count_since_refresh`), then copy the completed
chunk into the RX fifo when at least one chunk of space is available,
else count a miss; finally mark readable and advance the chunk index. -/
def stream_smi_read_dma_callback (chunk : Nat) (chunkData : List Nat)
    (i : DevInstance) : DevInstance :=
  let i1 := { i with count_since_refresh := 0 }
  let i2 :=
    if chunk ≤ kfifo_avail i1.rx_fifo then
      { i1 with rx_fifo := (kfifo_in i1.rx_fifo (chunkData.take chunk)).2 }
    else
      { i1 with counter_missed := i1.counter_missed + 1 }
  { i2 with readable := true,
            current_read_chunk := i2.current_read_chunk + 1 }

/-- Source function `stream_smi_check_and_restart` (source lines 618–640): count the
completion; every `SMI_TRANSFER_MULTIPLIER`-th completion re-issues
`smi_refresh_dma_command`, which zeroes the counter. -/
def stream_smi_check_and_restart (i : DevInstance) : DevInstance :=
  let i1 := { i with count_since_refresh := i.count_since_refresh + 1 }
  if SMI_TRANSFER_MULTIPLIER ≤ i1.count_since_refresh then
    { i1 with count_since_refresh := 0 }
  else
    i1

/-- Source function `stream_smi_write_dma_callback` (source lines 643–676): maybe
refresh, advance the chunk index, then pop one chunk of TX data into
the cyclic buffer slot when the TX fifo holds at least a chunk, else
count a miss; finally mark writeable. -/
def stream_smi_write_dma_callback (chunk : Nat) (i : DevInstance) :
    DevInstance :=
  let i1 := stream_smi_check_and_restart i
  let i2 := { i1 with current_read_chunk := i1.current_read_chunk + 1 }
  let i3 :=
    if chunk ≤ kfifo_len i2.tx_fifo then
      { i2 with tx_fifo := (kfifo_out i2.tx_fifo chunk).2 }
    else
      { i2 with counter_missed := i2.counter_missed + 1 }
  { i3 with writeable := true }

/-! ## File operations -/

/-- Source function `smi_stream_read_file_fifo` (source lines 863–889).  `bufNull`
models the `buf == NULL` flush sentinel; `lockOk` is whether
`mutex_lock_interruptible(&inst->read_lock)` succeeds.  Returns the
ssize_t result, the bytes delivered to user space, and the new
instance. -/
def smi_stream_read_file_fifo (bufNull : Bool) (count : Nat)
    (lockOk : Bool) (i : DevInstance) : Int × List Nat × DevInstance :=
  if bufNull then
    if lockOk then
      (0, [], { i with rx_fifo := kfifo_reset_out i.rx_fifo,
                       invalidate_rx_buffers := 1 })
    else
      (-EINTR, [], i)
  else
    if lockOk then
      let r := kfifo_to_user i.rx_fifo count
      ((r.1.length : Int), r.1, { i with rx_fifo := r.2 })
    else
      (-EINTR, [], i)

/-- Source function `smi_stream_write_file` (source lines 892–913).  `lockOk` is whether
`mutex_lock_interruptible(&inst->write_lock)` succeeds (its failure
returns `-EAGAIN` here, unlike the read path).  `data` is the user
buffer of `count = data.length` bytes. -/
def smi_stream_write_file (data : List Nat) (lockOk : Bool)
    (i : DevInstance) : Int × DevInstance :=
  if lockOk then
    let num_bytes_available := kfifo_avail i.tx_fifo
    let num_to_push := min num_bytes_available data.length
    let r := kfifo_from_user i.tx_fifo data num_to_push
    ((r.1 : Int), { i with tx_fifo := r.2 })
  else
    (-EAGAIN, i)

/-- Source function `smi_stream_poll` (source lines 916–937): builds the poll bitmask.
Note both occupancy tests are taken on `rx_fifo` in the source — the
write-readiness branch also reads `kfifo_is_full(&inst->rx_fifo)`. -/
def smi_stream_poll (i : DevInstance) : Nat × DevInstance :=
  let m0 : Nat := 0
  let s1 :=
    if ¬ kfifo_is_empty i.rx_fifo then
      (m0 ||| (POLLIN ||| POLLRDNORM), { i with readable := false })
    else
      (m0, i)
  if ¬ kfifo_is_full s1.2.rx_fifo then
    (s1.1 ||| (POLLOUT ||| POLLWRNORM), { s1.2 with writeable := false })
  else
    s1

/-- Source function `smi_stream_open` (source lines 797–834), on the correct minor
device: allocate both fifos at `fifo_mtu_multiplier × DMA bounce size`
bytes (`kfifo_init` rounds the size down to a power of two), then
`set_state(smi_stream_idle)` and clear `address_changed`.  `allocOk`
models the two `vmalloc` calls; `bounce` is `DMA_BOUNCE_BUFFER_SIZE`. -/
def smi_stream_open (bounce : Nat) (allocOk hwActive : Bool)
    (arm : ArmOutcome) (txLockOk : Bool) (p : Params) (i : DevInstance) :
    Int × DevInstance :=
  if allocOk then
    let cap := rounddown_pow_of_two (p.fifo_mtu_multiplier.toNat * bounce)
    let i1 := { i with rx_fifo := { capacity := cap, data := [] },
                       tx_fifo := { capacity := cap, data := [] } }
    let r := set_state hwActive arm txLockOk p.addr_dir_offset
      p.addr_ch_offset i1 .smi_stream_idle
    (0, { r.2 with address_changed := 0 })
  else
    (-ENOMEM, i)

/-- Source function `smi_stream_release` (source lines 837–860): force the stream to
idle, then free both fifo buffers (modelled as resetting them to zero
capacity) and clear `address_changed`. -/
def smi_stream_release (hwActive : Bool) (arm : ArmOutcome)
    (txLockOk : Bool) (p : Params) (i : DevInstance) : Int × DevInstance :=
  let r := set_state hwActive arm txLockOk p.addr_dir_offset
    p.addr_ch_offset i .smi_stream_idle
  (0, { r.2 with rx_fifo := { capacity := 0, data := [] },
                 tx_fifo := { capacity := 0, data := [] },
                 address_changed := 0 })

/-! ## ioctl surface -/

/-- The ioctl command set of `smi_stream_ioctl` (source lines 421–575),
with the argument decoded per command; `unknownCmd` stands for any
command value outside the switch. -/
inductive IoctlCmd where
  | getSettings
  | writeSettings
  | address (arg : Nat)
  | setStreamInChannel (arg : Nat)
  | getNativeBufSize
  | setStreamStatus (arg : StreamState)
  | setFifoMult (arg : Int)
  | setAddrDirOffset (arg : Int)
  | setAddrChOffset (arg : Int)
  | getFifoMult
  | getAddrDirOffset
  | getAddrChOffset
  | flushFifo
  | unknownCmd
  deriving Repr, DecidableEq

/-- Source function `smi_stream_ioctl` (source lines 421–575) acting on the module
parameters and the device instance.  The settings/address/get commands
only touch hardware registers or copy values to user space, so they
leave the modelled state unchanged and return 0; `SET_FIFO_MULT` and
the two offset setters range-check their argument and keep the prior
value on failure; the default branch returns `-ENOTTY`. -/
def smi_stream_ioctl (hwActive : Bool) (arm : ArmOutcome) (txLockOk : Bool)
    (p : Params) (i : DevInstance) (cmd : IoctlCmd) :
    Int × Params × DevInstance :=
  match cmd with
  | .setStreamStatus s =>
      let r := set_state hwActive arm txLockOk p.addr_dir_offset
        p.addr_ch_offset i s
      (r.1, p, r.2)
  | .setFifoMult t =>
      if t > 20 ∨ t < 2 then (-EINVAL, p, i)
      else (0, { p with fifo_mtu_multiplier := t }, i)
  | .setAddrDirOffset t =>
      if t > 4 ∨ t < -1 then (-EINVAL, p, i)
      else (0, { p with addr_dir_offset := t }, i)
  | .setAddrChOffset t =>
      if t > 4 ∨ t < -1 then (-EINVAL, p, i)
      else (0, { p with addr_ch_offset := t }, i)
  | .unknownCmd => (-ENOTTY, p, i)
  | _ => (0, p, i)

/-! ## Concrete instances for witnesses and counterexamples -/

/-- A freshly initialised device instance with small fifos (capacity 4
each), in the idle state. -/
def inst0 : DevInstance := {
  state := .smi_stream_idle, progAddress := 0, progCount := 0,
  address_changed := 0, invalidate_rx_buffers := 0,
  invalidate_tx_buffers := 0, count_since_refresh := 0,
  rx_fifo := { capacity := 4, data := [] },
  tx_fifo := { capacity := 4, data := [] },
  current_read_chunk := 0, counter_missed := 0,
  readable := false, writeable := false,
  transfer_thread_running := false, reader_waiting_sema := false,
  writer_waiting_sema := false }

/-- An instance currently streaming on receive channel 0. -/
def instRx0 : DevInstance := { inst0 with state := .smi_stream_rx_channel_0 }

/-- An instance that has already missed five chunks. -/
def inst5 : DevInstance := { inst0 with counter_missed := 5 }

/-- An instance whose RX fifo is non-empty but not full while its TX
fifo is completely full. -/
def instPoll : DevInstance := { inst0 with
  rx_fifo := { capacity := 4, data := [1, 2] },
  tx_fifo := { capacity := 2, data := [7, 7] } }

/-- The default module parameters (lines 71–73 of the source). -/
def params0 : Params :=
  { fifo_mtu_multiplier := 6, addr_dir_offset := 2, addr_ch_offset := 3 }

/-! ## Claims -/

/-- C4: a `set_state` call whose target equals the stored state returns
success immediately and leaves the whole instance — stored state,
programmed address selector (and reprogram count), both ring buffers,
and all counters — unchanged. -/
theorem C4_same_state_is_noop (hwActive : Bool) (arm : ArmOutcome)
    (txLockOk : Bool) (d c : Int) (i : DevInstance) (ns : StreamState)
    (h : ns = i.state) :
    set_state hwActive arm txLockOk d c i ns = (0, i) := by
  simp [set_state, h]

/-- Witness for C4 at a concrete instance. -/
theorem C4_same_state_is_noop_witness :
    set_state false ArmOutcome.ok true 2 3 inst0 .smi_stream_idle
      = (0, inst0) :=
  C4_same_state_is_noop false ArmOutcome.ok true 2 3 inst0
    .smi_stream_idle rfl

/-- C5: a read with the null-buffer sentinel returns 0 and empties the
RX fifo while leaving the TX fifo and the stream state untouched; a
read with a real buffer pops `min count occupancy` bytes in FIFO order
(so possibly fewer than `count`, and zero from an empty fifo) and
returns that number. -/
theorem C5_read_flush_and_pop (count : Nat) (i : DevInstance) :
    (smi_stream_read_file_fifo true count true i).1 = 0 ∧
    (smi_stream_read_file_fifo true count true i).2.1 = [] ∧
    (smi_stream_read_file_fifo true count true i).2.2.rx_fifo.data = [] ∧
    (smi_stream_read_file_fifo true count true i).2.2.tx_fifo = i.tx_fifo ∧
    (smi_stream_read_file_fifo true count true i).2.2.state = i.state ∧
    (smi_stream_read_file_fifo false count true i).2.1
      = i.rx_fifo.data.take (min count (kfifo_len i.rx_fifo)) ∧
    (smi_stream_read_file_fifo false count true i).2.2.rx_fifo.data
      = i.rx_fifo.data.drop (min count (kfifo_len i.rx_fifo)) ∧
    (smi_stream_read_file_fifo false count true i).1
      = ((min count (kfifo_len i.rx_fifo) : Nat) : Int) := by
  simp [smi_stream_read_file_fifo, kfifo_reset_out, kfifo_to_user,
    kfifo_out, kfifo_len]

/-- C6: a write of `count` bytes when the TX fifo has `f` free bytes
accepts exactly `min count f` bytes, appends them in order, and in
particular returns 0 against a full TX fifo. -/
theorem C6_write_accepts_min (data : List Nat) (i : DevInstance) :
    (smi_stream_write_file data true i).1
      = ((min data.length (kfifo_avail i.tx_fifo) : Nat) : Int) ∧
    (smi_stream_write_file data true i).2.tx_fifo.data
      = i.tx_fifo.data ++ data.take (min data.length (kfifo_avail i.tx_fifo)) ∧
    (kfifo_is_full i.tx_fifo = true → (smi_stream_write_file data true i).1 = 0) := by
  refine ⟨?_, ?_, ?_⟩
  · simp [smi_stream_write_file, kfifo_from_user, kfifo_in]
    omega
  · simp [smi_stream_write_file, kfifo_from_user, kfifo_in,
      List.take_take, Nat.min_comm]
  · intro hfull
    simp [kfifo_is_full] at hfull
    simp [smi_stream_write_file, kfifo_from_user, kfifo_in, kfifo_avail]
    omega

/-- Witness for C6: a write into a full TX fifo returns 0. -/
theorem C6_write_accepts_min_witness :
    (smi_stream_write_file [9, 9] true instPoll).1 = 0 :=
  (C6_write_accepts_min [9, 9] instPoll).2.2 (by decide)

/-- C1 counterexample: from stream state RxChannel0, a transition
attempt that finds the hardware still active returns `-EAGAIN` with the
stored state still RxChannel0 — it has NOT been forced to Idle, contrary
to the claim that the current state equals Idle at the failure point
(`inst->state = smi_stream_idle` at line 243 runs only after the
`-EAGAIN` return at line 239). -/
theorem C1_counterexample :
    (set_state true ArmOutcome.ok true 2 3 instRx0 .smi_stream_tx_channel).1
        = -EAGAIN ∧
    (set_state true ArmOutcome.ok true 2 3 instRx0
        .smi_stream_tx_channel).2.state ≠ .smi_stream_idle := by
  decide

/-- C1 amended: when a state-changing `set_state` call finds the
hardware still active after stopping the in-flight transfer, it returns
`-EAGAIN`, the attempted new state is not entered, and the stored state
is left at its previous value (the forcing to Idle has not happened
yet); ring buffers, the reprogram count, and the missed counter are
also untouched. -/
theorem C1_busy_keeps_previous_state (arm : ArmOutcome) (txLockOk : Bool)
    (d c : Int) (i : DevInstance) (ns : StreamState) (h : ns ≠ i.state) :
    (set_state true arm txLockOk d c i ns).1 = -EAGAIN ∧
    (set_state true arm txLockOk d c i ns).2.state = i.state ∧
    (set_state true arm txLockOk d c i ns).2.rx_fifo = i.rx_fifo ∧
    (set_state true arm txLockOk d c i ns).2.tx_fifo = i.tx_fifo ∧
    (set_state true arm txLockOk d c i ns).2.progCount = i.progCount ∧
    (set_state true arm txLockOk d c i ns).2.counter_missed
      = i.counter_missed := by
  simp [set_state, h, transfer_thread_stop]

/-- Witness for the amended C1 at a concrete instance. -/
theorem C1_busy_keeps_previous_state_witness :
    (set_state true ArmOutcome.ok true 2 3 instRx0 .smi_stream_tx_channel).1
        = -EAGAIN ∧
    (set_state true ArmOutcome.ok true 2 3 instRx0
        .smi_stream_tx_channel).2.state = instRx0.state ∧
    (set_state true ArmOutcome.ok true 2 3 instRx0
        .smi_stream_tx_channel).2.rx_fifo = instRx0.rx_fifo ∧
    (set_state true ArmOutcome.ok true 2 3 instRx0
        .smi_stream_tx_channel).2.tx_fifo = instRx0.tx_fifo ∧
    (set_state true ArmOutcome.ok true 2 3 instRx0
        .smi_stream_tx_channel).2.progCount = instRx0.progCount ∧
    (set_state true ArmOutcome.ok true 2 3 instRx0
        .smi_stream_tx_channel).2.counter_missed = instRx0.counter_missed :=
  C1_busy_keeps_previous_state ArmOutcome.ok true 2 3 instRx0
    .smi_stream_tx_channel (by decide)

/-- C2: on an instance whose RX fifo is non-empty but not full while
its TX fifo is completely full, the poll mask still has the writeable
bit (`POLLOUT`) set — the source computes write readiness from
`!kfifo_is_full(&inst->rx_fifo)` (line 929) instead of from the TX
fifo, so the claimed "writeable iff TX has free space" fails; the
readable bit is correct (RX is non-empty and `POLLIN` is set). -/
theorem C2_pollout_computed_from_rx_fifo :
    kfifo_is_full instPoll.tx_fifo = true ∧
    (smi_stream_poll instPoll).1 &&& POLLOUT ≠ 0 ∧
    kfifo_is_empty instPoll.rx_fifo = false ∧
    (smi_stream_poll instPoll).1 &&& POLLIN ≠ 0 := by
  decide

/-- C7 counterexample: with the valid, distinct offsets 2 and 3 the
selectors for Idle and TxChannel are equal (both branches of
`calc_address_from_state` compute
`smi_stream_dir_smi_to_device << addr_dir_offset`), contradicting the
claimed distinctness. -/
theorem C7_counterexample :
    (0 : Int) ≤ 2 ∧ (2 : Int) ≤ 4 ∧ (0 : Int) ≤ 3 ∧ (3 : Int) ≤ 4 ∧
    (2 : Int) ≠ 3 ∧
    calc_address_from_state 2 3 .smi_stream_idle
      = calc_address_from_state 2 3 .smi_stream_tx_channel := by
  decide

/-- C7 amended: for valid, distinct direction/channel offsets the Idle
and TxChannel selectors are EQUAL (both encode the disabled direction
with channel 0); and with both offsets −1 the selector is the constant
0 for all four states. -/
theorem C7_idle_equals_tx_selector (d c : Int) (hd0 : 0 ≤ d) (hd4 : d ≤ 4)
    (hc0 : 0 ≤ c) (hc4 : c ≤ 4) (hdc : d ≠ c) :
    calc_address_from_state d c .smi_stream_idle
      = calc_address_from_state d c .smi_stream_tx_channel ∧
    (∀ s : StreamState, calc_address_from_state (-1) (-1) s = 0) := by
  refine ⟨rfl, ?_⟩
  intro s
  cases s <;> decide

/-- Witness for the amended C7 at offsets 2 and 3. -/
theorem C7_idle_equals_tx_selector_witness :
    calc_address_from_state 2 3 .smi_stream_idle
      = calc_address_from_state 2 3 .smi_stream_tx_channel ∧
    (∀ s : StreamState, calc_address_from_state (-1) (-1) s = 0) :=
  C7_idle_equals_tx_selector 2 3 (by decide) (by decide) (by decide)
    (by decide) (by decide)

/-- C9 counterexample: with the direction offset at its default 2 and
the channel offset at 3, the ioctl that sets the channel offset to 2 —
equal to the direction offset, neither being −1 — succeeds with return
0 and overwrites the channel offset, where the claim demands `-EINVAL`
with the prior value retained (the runtime ioctl at lines 518–529 only
range-checks; the distinctness check exists only at module init, lines
995–998). -/
theorem C9_counterexample :
    params0.addr_dir_offset = 2 ∧ params0.addr_ch_offset = 3 ∧
    (smi_stream_ioctl false ArmOutcome.ok true params0 inst0
        (.setAddrChOffset 2)).1 = 0 ∧
    (smi_stream_ioctl false ArmOutcome.ok true params0 inst0
        (.setAddrChOffset 2)).2.1.addr_ch_offset = 2 := by
  decide

/-- C9 amended: a ring-buffer size multiplier outside 2–20 is rejected
with `-EINVAL` and the prior value retained; a channel bit offset
outside {−1, 0–4} is rejected with `-EINVAL` and the prior value
retained, but a channel offset inside that range is accepted even when
it equals the current direction offset (distinctness is only checked at
module init); every unknown control code fails with `-ENOTTY` leaving
all settings unchanged. -/
theorem C9_tunable_validation (hwActive : Bool) (arm : ArmOutcome)
    (txLockOk : Bool) (p : Params) (i : DevInstance) (tm tc : Int) :
    (tm > 20 ∨ tm < 2 →
      smi_stream_ioctl hwActive arm txLockOk p i (.setFifoMult tm)
        = (-EINVAL, p, i)) ∧
    (tc > 4 ∨ tc < -1 →
      smi_stream_ioctl hwActive arm txLockOk p i (.setAddrChOffset tc)
        = (-EINVAL, p, i)) ∧
    (-1 ≤ tc ∧ tc ≤ 4 →
      smi_stream_ioctl hwActive arm txLockOk p i (.setAddrChOffset tc)
        = (0, { p with addr_ch_offset := tc }, i)) ∧
    smi_stream_ioctl hwActive arm txLockOk p i .unknownCmd
      = (-ENOTTY, p, i) := by
  refine ⟨?_, ?_, ?_, ?_⟩
  · intro hm
    simp [smi_stream_ioctl, hm]
  · intro hc
    simp [smi_stream_ioctl, hc]
  · intro hc
    have : ¬ (tc > 4 ∨ tc < -1) := by omega
    simp [smi_stream_ioctl, this]
  · simp [smi_stream_ioctl]

/-- Witness for the amended C9: multiplier 21 and channel offset 5 are
rejected with the prior values kept, channel offset 2 (equal to the
direction offset) is accepted, and an unknown code yields `-ENOTTY`. -/
theorem C9_tunable_validation_witness :
    smi_stream_ioctl false ArmOutcome.ok true params0 inst0
        (.setFifoMult 21) = (-EINVAL, params0, inst0) ∧
    smi_stream_ioctl false ArmOutcome.ok true params0 inst0
        (.setAddrChOffset 5) = (-EINVAL, params0, inst0) ∧
    smi_stream_ioctl false ArmOutcome.ok true params0 inst0
        (.setAddrChOffset 2)
      = (0, { params0 with addr_ch_offset := 2 }, inst0) ∧
    smi_stream_ioctl false ArmOutcome.ok true params0 inst0 .unknownCmd
      = (-ENOTTY, params0, inst0) := by
  have h := C9_tunable_validation false ArmOutcome.ok true params0 inst0 21 5
  have h2 := C9_tunable_validation false ArmOutcome.ok true params0 inst0 21 2
  exact ⟨h.1 (by decide), h.2.1 (by decide), h2.2.2.1 (by decide), h.2.2.2⟩

/-- Helper: one receive completion keeps the RX occupancy within the
(unchanged) capacity. -/
theorem rx_callback_len_bound (chunk : Nat) (cd : List Nat)
    (i : DevInstance) (h : kfifo_len i.rx_fifo ≤ i.rx_fifo.capacity) :
    kfifo_len (stream_smi_read_dma_callback chunk cd i).rx_fifo
        ≤ i.rx_fifo.capacity ∧
    (stream_smi_read_dma_callback chunk cd i).rx_fifo.capacity
        = i.rx_fifo.capacity := by
  simp only [stream_smi_read_dma_callback, kfifo_in, kfifo_len,
    kfifo_avail] at *
  split <;> simp_all <;> omega

/-- Helper: a whole sequence of receive completions keeps the RX
occupancy within the initial capacity. -/
theorem rx_fold_len_bound (chunk : Nat) (cds : List (List Nat))
    (i : DevInstance) (h : kfifo_len i.rx_fifo ≤ i.rx_fifo.capacity) :
    kfifo_len ((cds.foldl
        (fun j cd => stream_smi_read_dma_callback chunk cd j) i)).rx_fifo
      ≤ i.rx_fifo.capacity := by
  induction cds generalizing i with
  | nil => simpa using h
  | cons cd cds ih =>
      have h1 := rx_callback_len_bound chunk cd i h
      have h2 := ih (stream_smi_read_dma_callback chunk cd i)
        (h1.2.symm ▸ h1.1)
      simpa [h1.2] using h2

/-- C3: on a receive completion delivering one chunk, if the RX fifo
has at least a chunk of free space the whole chunk is appended and the
missed counter is unchanged; otherwise the RX fifo is left exactly as
it was and the missed counter increments by one; and across any
sequence of completions the RX occupancy never exceeds the capacity. -/
theorem C3_rx_completion_policy (chunk : Nat) (cd : List Nat)
    (hcd : cd.length = chunk) (i : DevInstance) :
    (chunk ≤ kfifo_avail i.rx_fifo →
      (stream_smi_read_dma_callback chunk cd i).rx_fifo.data
          = i.rx_fifo.data ++ cd ∧
      (stream_smi_read_dma_callback chunk cd i).counter_missed
          = i.counter_missed) ∧
    (¬ chunk ≤ kfifo_avail i.rx_fifo →
      (stream_smi_read_dma_callback chunk cd i).rx_fifo = i.rx_fifo ∧
      (stream_smi_read_dma_callback chunk cd i).counter_missed
          = i.counter_missed + 1) ∧
    (∀ cds : List (List Nat),
      kfifo_len i.rx_fifo ≤ i.rx_fifo.capacity →
      kfifo_len ((cds.foldl
          (fun j cd => stream_smi_read_dma_callback chunk cd j) i)).rx_fifo
        ≤ i.rx_fifo.capacity) := by
  subst hcd
  refine ⟨?_, ?_, fun cds h => rx_fold_len_bound cd.length cds i h⟩
  · intro hle
    have hmin : min cd.length (kfifo_avail i.rx_fifo) = cd.length := by
      omega
    simp [stream_smi_read_dma_callback, kfifo_in, hle, hmin]
  · intro hgt
    simp [stream_smi_read_dma_callback, hgt]

/-- Witness for C3 at chunk size 2 on a fresh instance of capacity 4. -/
theorem C3_rx_completion_policy_witness :
    ((2 : Nat) ≤ kfifo_avail inst0.rx_fifo) ∧
    (stream_smi_read_dma_callback 2 [1, 2] inst0).rx_fifo.data
        = inst0.rx_fifo.data ++ [1, 2] ∧
    kfifo_len ((([[1, 2], [3, 4], [5, 6]] : List (List Nat)).foldl
        (fun j cd => stream_smi_read_dma_callback 2 cd j) inst0)).rx_fifo
      ≤ inst0.rx_fifo.capacity :=
  ⟨by decide,
   ((C3_rx_completion_policy 2 [1, 2] rfl inst0).1 (by decide)).1,
   (C3_rx_completion_policy 2 [1, 2] rfl inst0).2.2
     [[1, 2], [3, 4], [5, 6]] (by decide)⟩

/-- C8 counterexample: an instance that has already missed five chunks
keeps `counter_missed = 5` through a session open (open is not a
reset point — the zeroing sits in `transfer_thread_init`, lines
745–746), and a mid-session transition into RxChannel0 drops the
counter from 5 back to 0 — a strict decrease across an operation of
the session, contradicting both halves of the claim. -/
theorem C8_counterexample :
    inst5.counter_missed = 5 ∧
    (smi_stream_open 8 true false ArmOutcome.ok true params0 inst5).1
        = 0 ∧
    (smi_stream_open 8 true false ArmOutcome.ok true params0
        inst5).2.counter_missed = 5 ∧
    (set_state false ArmOutcome.ok true 2 3 inst5
        .smi_stream_rx_channel_0).1 = 0 ∧
    (set_state false ArmOutcome.ok true 2 3 inst5
        .smi_stream_rx_channel_0).2.counter_missed = 0 := by
  decide

/-- C8 amended: the missed-chunk counter is NOT reset at session open
(open leaves it unchanged under every hardware outcome); it is zeroed
by `transfer_thread_init` whenever a receive transfer is armed; and it
is non-decreasing across both completion callbacks and across every
read, write, and poll. -/
theorem C8_missed_counter_lifecycle :
    (∀ (bounce : Nat) (hwActive : Bool) (arm : ArmOutcome)
       (txLockOk : Bool) (p : Params) (i : DevInstance),
       (smi_stream_open bounce true hwActive arm txLockOk p
           i).2.counter_missed = i.counter_missed) ∧
    (∀ i : DevInstance,
       (transfer_thread_init ArmOutcome.ok i).2.counter_missed = 0) ∧
    (∀ (chunk : Nat) (cd : List Nat) (i : DevInstance),
       i.counter_missed
         ≤ (stream_smi_read_dma_callback chunk cd i).counter_missed) ∧
    (∀ (chunk : Nat) (i : DevInstance),
       i.counter_missed
         ≤ (stream_smi_write_dma_callback chunk i).counter_missed) ∧
    (∀ (bufNull : Bool) (count : Nat) (lockOk : Bool) (i : DevInstance),
       (smi_stream_read_file_fifo bufNull count lockOk
           i).2.2.counter_missed = i.counter_missed) ∧
    (∀ (data : List Nat) (lockOk : Bool) (i : DevInstance),
       (smi_stream_write_file data lockOk i).2.counter_missed
         = i.counter_missed) ∧
    (∀ i : DevInstance,
       (smi_stream_poll i).2.counter_missed = i.counter_missed) := by
  refine ⟨?_, ?_, ?_, ?_, ?_, ?_, ?_⟩
  · intro bounce hwActive arm txLockOk p i
    simp only [smi_stream_open, set_state, transfer_thread_stop]
    split <;> (try split) <;> (try split) <;> simp
  · intro i
    simp [transfer_thread_init]
  · intro chunk cd i
    simp only [stream_smi_read_dma_callback]
    split <;> simp
  · intro chunk i
    simp only [stream_smi_write_dma_callback, stream_smi_check_and_restart]
    split <;> split <;> simp
  · intro bufNull count lockOk i
    simp only [smi_stream_read_file_fifo]
    split <;> split <;> simp
  · intro data lockOk i
    simp only [smi_stream_write_file]
    split <;> simp
  · intro i
    simp only [smi_stream_poll]
    split <;> split <;> simp

/-- Helper: a successful `set_state` to TxChannel from Idle programs
the Idle then the Tx selector, resets the TX fifo, marks writeable, and
returns 0 — without ever assigning TxChannel to the stored state
(the `inst->state = new_state` at line 290 is unreachable from the Tx
branch, which returns at line 280). -/
theorem set_state_tx_from_idle (arm : ArmOutcome) (d c : Int)
    (i : DevInstance) (h : i.state = .smi_stream_idle) :
    set_state false arm true d c i .smi_stream_tx_channel
      = (0, { i with
          transfer_thread_running := false,
          reader_waiting_sema := false,
          state := .smi_stream_idle,
          progAddress := calc_address_from_state d c .smi_stream_tx_channel,
          progCount := i.progCount + 2,
          tx_fifo := kfifo_reset i.tx_fifo,
          writeable := true }) := by
  simp [set_state, h, transfer_thread_stop]

/-- Helper: the write file operation never touches the stream state or
the reprogram count. -/
theorem write_file_state_progCount (data : List Nat) (j : DevInstance) :
    (smi_stream_write_file data true j).2.state = j.state ∧
    (smi_stream_write_file data true j).2.progCount = j.progCount := by
  simp [smi_stream_write_file, kfifo_from_user, kfifo_in]

/-- C10: a successful `set_state(TxChannel)` from Idle returns 0 yet
leaves the stored state at Idle and the TX fifo empty; hence an
immediately repeated `set_state(TxChannel)` — after any interleaving
write — is not a same-state no-op: it runs the full transition again
(two further selector programmings) and empties the TX fifo, discarding
the bytes written in between. -/
theorem C10_repeated_tx_not_noop (arm : ArmOutcome) (d c : Int)
    (i : DevInstance) (data : List Nat) (h : i.state = .smi_stream_idle) :
    (set_state false arm true d c i .smi_stream_tx_channel).1 = 0 ∧
    (set_state false arm true d c i .smi_stream_tx_channel).2.state
      = .smi_stream_idle ∧
    (set_state false arm true d c i .smi_stream_tx_channel).2.tx_fifo.data
      = [] ∧
    (set_state false arm true d c
        (smi_stream_write_file data true
          (set_state false arm true d c i .smi_stream_tx_channel).2).2
        .smi_stream_tx_channel).1 = 0 ∧
    (set_state false arm true d c
        (smi_stream_write_file data true
          (set_state false arm true d c i .smi_stream_tx_channel).2).2
        .smi_stream_tx_channel).2.state = .smi_stream_idle ∧
    (set_state false arm true d c
        (smi_stream_write_file data true
          (set_state false arm true d c i .smi_stream_tx_channel).2).2
        .smi_stream_tx_channel).2.tx_fifo.data = [] ∧
    (set_state false arm true d c
        (smi_stream_write_file data true
          (set_state false arm true d c i .smi_stream_tx_channel).2).2
        .smi_stream_tx_channel).2.progCount
      = (smi_stream_write_file data true
          (set_state false arm true d c i .smi_stream_tx_channel).2).2.progCount
        + 2 := by
  have h1 := set_state_tx_from_idle arm d c i h
  have hmid :
      (smi_stream_write_file data true
        (set_state false arm true d c i .smi_stream_tx_channel).2).2.state
        = .smi_stream_idle := by
    rw [(write_file_state_progCount data _).1, h1]
  have h2 := set_state_tx_from_idle arm d c
    (smi_stream_write_file data true
      (set_state false arm true d c i .smi_stream_tx_channel).2).2 hmid
  rw [h2]
  simp [h1, kfifo_reset]

/-- Witness for C10 at a concrete instance: one byte written between
the two Tx transitions is discarded by the second. -/
theorem C10_repeated_tx_not_noop_witness :
    (set_state false ArmOutcome.ok true 2 3 inst0 .smi_stream_tx_channel).1
        = 0 ∧
    (set_state false ArmOutcome.ok true 2 3 inst0
        .smi_stream_tx_channel).2.state = .smi_stream_idle ∧
    (set_state false ArmOutcome.ok true 2 3 inst0
        .smi_stream_tx_channel).2.tx_fifo.data = [] ∧
    (set_state false ArmOutcome.ok true 2 3
        (smi_stream_write_file [5] true
          (set_state false ArmOutcome.ok true 2 3 inst0
            .smi_stream_tx_channel).2).2
        .smi_stream_tx_channel).1 = 0 ∧
    (set_state false ArmOutcome.ok true 2 3
        (smi_stream_write_file [5] true
          (set_state false ArmOutcome.ok true 2 3 inst0
            .smi_stream_tx_channel).2).2
        .smi_stream_tx_channel).2.state = .smi_stream_idle ∧
    (set_state false ArmOutcome.ok true 2 3
        (smi_stream_write_file [5] true
          (set_state false ArmOutcome.ok true 2 3 inst0
            .smi_stream_tx_channel).2).2
        .smi_stream_tx_channel).2.tx_fifo.data = [] ∧
    (set_state false ArmOutcome.ok true 2 3
        (smi_stream_write_file [5] true
          (set_state false ArmOutcome.ok true 2 3 inst0
            .smi_stream_tx_channel).2).2
        .smi_stream_tx_channel).2.progCount
      = (smi_stream_write_file [5] true
          (set_state false ArmOutcome.ok true 2 3 inst0
            .smi_stream_tx_channel).2).2.progCount + 2 :=
  C10_repeated_tx_not_noop ArmOutcome.ok 2 3 inst0 [5] rfl

end SmiStream
